import Mathlib

/-
Verification of the fetch-orchestration engine of `scholar_scraper.py`
(class `GoogleScholarScraperSerpAPI`).

The embedding models Python values as the inductive `PyVal` (dicts are
association lists), fallible Python code as `Except Unit` (an `.error ()`
stands for a raised ordinary exception, e.g. `AttributeError`/`TypeError`),
and the page/retry loops of `search_articles` as explicit state passing with
a fuel parameter for the inner `while` loop.  `time.sleep` calls are
suspension points: an interrupt oracle `intr : Nat → Bool` says whether a
`KeyboardInterrupt` arrives during the n-th sleep of the run; in Python 3 a
`KeyboardInterrupt` is a `BaseException`, not an `Exception`, so it is not
caught by the `except` clauses of `search_articles` and aborts the call
without returning.  Sleep durations, printing and the pandas `DataFrame`
wrapper are not modelled; the returned `ResultSet` is the list of records.
-/

namespace Scraper

/-- Python-style dynamically typed value: `None`, booleans, integers,
strings, lists, and string-keyed dictionaries (association lists). -/
inductive PyVal where
  | none : PyVal
  | bool : Bool → PyVal
  | int : Int → PyVal
  | str : String → PyVal
  | list : List PyVal → PyVal
  | dict : List (String × PyVal) → PyVal

/-- Python truthiness: `None`, `False`, `0`, `""`, `[]`, `{}` are falsy. -/
def PyVal.truthy : PyVal → Bool
  | .none => false
  | .bool b => b
  | .int i => i != 0
  | .str s => !s.data.isEmpty
  | .list xs => !xs.isEmpty
  | .dict d => !d.isEmpty

/-- Python `d.get(k, default)` on a dictionary value; raises
`AttributeError` (modelled as `.error ()`) when the receiver is not a
dictionary. -/
def PyVal.get : PyVal → String → PyVal → Except Unit PyVal
  | .dict d, k, dflt => .ok ((d.lookup k).getD dflt)
  | _, _, _ => .error ()

/-- Python `d.get(k, default)` where the receiver is statically known to be
a dictionary (the top-level API response). -/
def dictGetD (d : List (String × PyVal)) (k : String) (dflt : PyVal) : PyVal :=
  (d.lookup k).getD dflt

/-- Python `str.lower()` (ASCII case folding suffices for the classifier's
keyword groups, which are all ASCII). -/
def pyLower (s : String) : String :=
  String.mk (s.data.map Char.toLower)

/-- Substring containment on character lists, modelling Python's
`needle in haystack` for strings. -/
def listContains (needle hay : List Char) : Bool :=
  (List.range (hay.length + 1)).any fun i => needle.isPrefixOf (hay.drop i)

/-- Python `needle in haystack` for strings. -/
def strIn (needle hay : String) : Bool :=
  listContains needle.data hay.data

/-- Python `sep.join(strings)` once every element is known to be a
string. -/
def joinStrs (sep : String) : List String → String
  | [] => ""
  | a :: rest => rest.foldl (fun acc x => acc ++ sep ++ x) a

mutual

/-- Python `str(v)`: the `repr` used for values nested inside containers. -/
def pyRepr : PyVal → String
  | .none => "None"
  | .bool true => "True"
  | .bool false => "False"
  | .int i => toString i
  | .str s => "\x27" ++ s ++ "\x27"
  | .list xs => "[" ++ joinStrs ", " (pyReprList xs) ++ "]"
  | .dict d => "\x7b" ++ joinStrs ", " (pyReprEntries d) ++ "\x7d"

/-- reprs of the elements of a Python list. -/
def pyReprList : List PyVal → List String
  | [] => []
  | x :: xs => pyRepr x :: pyReprList xs

/-- reprs of the entries of a Python dictionary. -/
def pyReprEntries : List (String × PyVal) → List String
  | [] => []
  | kv :: d => ("\x27" ++ kv.1 ++ "\x27: " ++ pyRepr kv.2) :: pyReprEntries d

end

/-- Python `str(v)`: a string is returned as itself, anything else via its
repr. -/
def pyStr : PyVal → String
  | .str s => s
  | v => pyRepr v

/-- Closed classification tags produced by `handle_api_error`
(`scholar_scraper.py` lines 34-103): the `error_type` strings of the
source. -/
inductive ErrorType where
  | rate_limit
  | access_denied
  | captcha
  | no_results
  | generic_error
  | processing_error
  | empty_results
deriving DecidableEq

/-- `handle_api_error(self, results, page_num)` (`scholar_scraper.py` lines
22-103): classify one raw API response.  Returns
`(continue_scraping, error_type)`; `error_type = Option.none` is the OK
outcome (source returns `(True, None)`).  `.error ()` models an exception
escaping the classifier (e.g. `.lower()` on a non-string error value),
which the caller's `except` clauses absorb as a retryable failure.
`page_num` only feeds `print` calls and is omitted. -/
def handle_api_error (results : List (String × PyVal)) :
    Except Unit (Bool × Option ErrorType) :=
  match results.lookup "error" with
  | some errVal => do
      let msg ← match errVal with
        | .str s => Except.ok (pyLower s)
        | _ => Except.error ()
      if strIn "rate limit" msg || strIn "too many requests" msg then
        pure (false, some .rate_limit)
      else if strIn "forbidden" msg || strIn "unauthorized" msg then
        pure (false, some .access_denied)
      else if strIn "captcha" msg || strIn "blocked" msg then
        pure (true, some .captcha)
      else if strIn "no results" msg || strIn "hasn\x27t returned" msg then
        pure (false, some .no_results)
      else
        pure (true, some .generic_error)
  | Option.none => do
      let search_metadata := dictGetD results "search_metadata" (.dict [])
      let status ← search_metadata.get "status" (.str "Unknown")
      let statusIsError := match status with
        | .str s => s == "Error"
        | _ => false
      if statusIsError then
        pure (true, some .processing_error)
      else do
        let search_info := dictGetD results "search_information" (.dict [])
        let results_state ← search_info.get "organic_results_state" (.str "")
        let stateLower ← match results_state with
          | .str s => Except.ok (pyLower s)
          | _ => Except.error ()
        if strIn "empty" stateLower then
          pure (false, some .empty_results)
        else
          pure (true, Option.none)

/-- Walk a chain of keys through a value, Python
`for key in keys: value = value.get(key, {})`; raises when an intermediate
value is not a dictionary. -/
def chainGet : PyVal → List String → Except Unit PyVal
  | v, [] => .ok v
  | v, k :: ks => do chainGet (← v.get k (.dict [])) ks

/-- `safe_get_field(self, data, keys, default)` (`scholar_scraper.py` lines
105-126): defensive nested lookup; `keys` is either a list of keys or a
single key; every exception is swallowed into the default.  Only the
list-of-keys branch checks truthiness of the final value. -/
def safe_get_field (data : PyVal) (keys : List String ⊕ String)
    (default : PyVal) : PyVal :=
  match keys with
  | .inl ks =>
      match chainGet data ks with
      | .ok v => if v.truthy then v else default
      | .error _ => default
  | .inr k =>
      match data.get k default with
      | .ok v => v
      | .error _ => default

/-- The normalized output record appended to `self.results`
(`scholar_scraper.py` lines 223-230). -/
structure Record where
  title : PyVal
  authors : String
  publication : PyVal
  year : PyVal
  cited_by : PyVal
  link : PyVal

/-- One element of the author join (`scholar_scraper.py` line 205):
`a.get('name', 'Unknown') if isinstance(a, dict) else str(a)`.  Note the
dictionary branch yields the raw `name` value, not its string form. -/
def authorElem (a : PyVal) : PyVal :=
  match a with
  | .dict d => dictGetD d "name" (.str "Unknown")
  | x => .str (pyStr x)

/-- Python `str.join` accepts only string elements; anything else raises
`TypeError`. -/
def pyStrOnly : PyVal → Except Unit String
  | .str s => .ok s
  | _ => .error ()

/-- Collect the join's elements as strings, raising at the first
non-string element as Python `str.join` does. -/
def strList : List PyVal → Except Unit (List String)
  | [] => .ok []
  | v :: vs => do
      let s ← pyStrOnly v
      let rest ← strList vs
      pure (s :: rest)

/-- Python `sep.join(xs)`: raises `TypeError` when an element is not a
string. -/
def pyJoin (sep : String) (xs : List PyVal) : Except Unit String := do
  let ss ← strList xs
  pure (joinStrs sep ss)

/-- The authors computation (`scholar_scraper.py` lines 203-209):
`', '.join(...)` over the author entries when `authors_list` is a
non-empty list, the `'N/A'` sentinel otherwise. -/
def authorsField (authors_list : PyVal) : Except Unit String :=
  match authors_list with
  | PyVal.list as =>
      if as.isEmpty then pure "N/A"
      else pyJoin ", " (as.map authorElem)
  | _ => pure "N/A"

/-- The citation-count extraction (`scholar_scraper.py` line 214):
`cited_by_info.get('total', 0) if isinstance(cited_by_info, dict) else 0`.
Whatever value sits at `total` is used as-is. -/
def citedByField (cited_by_info : PyVal) : PyVal :=
  match cited_by_info with
  | .dict cb => dictGetD cb "total" (.int 0)
  | _ => .int 0

/-- Normalization of one raw result item, inlined in the source at
`scholar_scraper.py` lines 196-230.  `.error ()` models an exception
escaping to the orchestrator's `except` clauses (e.g. `article` or
`publication_info` or `inline_links` not being a dictionary, or a
non-string author name reaching `', '.join`). -/
def normalize (article : PyVal) : Except Unit Record := do
  let title := safe_get_field article (Sum.inr "title") (.str "Untitled")
  let pub_info ← article.get "publication_info" (.dict [])
  let authors_list ← pub_info.get "authors" (.list [])
  let authors ← authorsField authors_list
  let inline_links ← article.get "inline_links" (.dict [])
  let cited_by_info ← inline_links.get "cited_by" (.dict [])
  let cited_by : PyVal := citedByField cited_by_info
  let link := safe_get_field article (Sum.inr "link") (.str "No URL available")
  let publication := safe_get_field pub_info (Sum.inr "summary") (.str "N/A")
  let year := safe_get_field article (Sum.inr "year") (.str "N/A")
  pure { title := title, authors := authors, publication := publication,
         year := year, cited_by := cited_by, link := link }

/-- `self.max_retries = 3` (`scholar_scraper.py` line 19). -/
def max_retries : Nat := 3

/-- `max_consecutive_errors = 3` (`scholar_scraper.py` line 148). -/
def max_consecutive_errors : Nat := 3

/-- Outcome of one call of the injected remote-fetch capability
(`GoogleSearch(params).get_dict()`): either a response dictionary or a
raised transport-level exception (`ConnectionError` etc.). -/
inductive FetchOut where
  | resp : List (String × PyVal) → FetchOut
  | raise : FetchOut

/-- Orchestrator-internal run state: `self.results`, the
`consecutive_errors` counter, plus observational instrumentation — the
number of fetch calls issued so far, the `start` offset passed to each
fetch (in call order), and the number of `time.sleep` calls executed (the
interrupt oracle is indexed by it). -/
structure SState where
  results : List Record
  consecutive_errors : Nat
  calls : Nat
  trace : List Nat
  sleeps : Nat

/-- `self.results = []`, `consecutive_errors = 0` at the start of every
`search_articles` call (`scholar_scraper.py` lines 137, 147). -/
def initState : SState := ⟨[], 0, 0, [], 0⟩

/-- One `time.sleep` call: if the interrupt oracle fires during this
sleep, a `KeyboardInterrupt` is raised; it is a `BaseException`, caught by
none of the `except` clauses of `search_articles`. -/
def doSleep (intr : Nat → Bool) (st : SState) : Except Unit SState :=
  if intr st.sleeps then .error () else .ok { st with sleeps := st.sleeps + 1 }

/-- Result of one iteration of the inner `while` body: the whole
`search_articles` call returned (`ret`), a `KeyboardInterrupt` propagated
out of it (`interrupted`), or control reaches the `while` condition again
(`loop`, carrying the new state, `retry_count` and `page_success`). -/
inductive AttemptOut where
  | ret : List Record → List Nat → AttemptOut
  | interrupted : List Nat → AttemptOut
  | loop : SState → Nat → Bool → AttemptOut

/-- Record one fetch call with offset `page * 10` (`scholar_scraper.py`
lines 156-168). -/
def bumpFetch (page : Nat) (st : SState) : SState :=
  { st with calls := st.calls + 1, trace := st.trace ++ [page * 10] }

/-- Shared retry tail: `retry_count += 1; if retry_count < max_retries:
time.sleep(...)` — the shape of both the retryable-classification path
(`scholar_scraper.py` lines 183-188) and all three `except` clauses
(lines 242-260); only the unmodelled sleep durations differ. -/
def retryStep (intr : Nat → Bool) (st : SState) (retry_count : Nat) :
    AttemptOut :=
  if retry_count + 1 < max_retries then
    match doSleep intr st with
    | .ok st2 => .loop st2 (retry_count + 1) false
    | .error _ => .interrupted st.trace
  else .loop st (retry_count + 1) false

/-- Iterating `for article in results["organic_results"]`: lists iterate
elements, strings iterate one-character strings, dictionaries iterate
keys; other values raise `TypeError`. -/
def pyIter : PyVal → Except Unit (List PyVal)
  | .list xs => .ok xs
  | .str s => .ok (s.data.map fun c => .str (String.mk [c]))
  | .dict d => .ok (d.map fun kv => .str kv.1)
  | _ => .error ()

/-- The per-article loop (`scholar_scraper.py` lines 195-230): normalize
each article and append to `self.results`.  When normalization of an
article raises, the records already appended stay in `self.results`
(carried by the `.error`) and the exception aborts the attempt. -/
def processArticles : List PyVal → List Record → Except (List Record) (List Record)
  | [], acc => .ok acc
  | a :: rest, acc =>
      match normalize a with
      | .ok r => processArticles rest (acc ++ [r])
      | .error _ => .error acc

/-- End of a successful attempt (`scholar_scraper.py` lines 233, 239-240):
`page_success = True`, then the inter-page delay
`if page_success and page < num_pages - 1: time.sleep(delay)`. -/
def successTail (intr : Nat → Bool) (num_pages page retry_count : Nat)
    (st3 : SState) : AttemptOut :=
  if page < num_pages - 1 then
    match doSleep intr st3 with
    | .ok st4 => .loop st4 retry_count true
    | .error _ => .interrupted st3.trace
  else .loop st3 retry_count true

/-- The OK-classification branch (`scholar_scraper.py` lines 190-236),
entered with `consecutive_errors` already reset to 0: process
`organic_results` when present and truthy, else count a soft failure
(neither `retry_count` nor `page_success` changes there). -/
def okStep (intr : Nat → Bool) (num_pages page retry_count : Nat)
    (st2 : SState) (r : List (String × PyVal)) : AttemptOut :=
  match r.lookup "organic_results" with
  | some v =>
      if v.truthy then
        match pyIter v with
        | .error _ => retryStep intr st2 retry_count
        | .ok arts =>
            match processArticles arts st2.results with
            | .error part => retryStep intr { st2 with results := part } retry_count
            | .ok rs => successTail intr num_pages page retry_count { st2 with results := rs }
      else .loop { st2 with consecutive_errors := st2.consecutive_errors + 1 } retry_count false
  | Option.none => .loop { st2 with consecutive_errors := st2.consecutive_errors + 1 } retry_count false

/-- Dispatch on the classification of a fetched response
(`scholar_scraper.py` lines 171-191): a non-`continue` classification
returns the accumulated results immediately; a retryable one increments
`consecutive_errors`, returns when the ceiling is reached, else takes the
retry tail; OK resets `consecutive_errors` to 0 and processes results. -/
def respStep (intr : Nat → Bool) (num_pages page retry_count : Nat)
    (st1 : SState) (r : List (String × PyVal)) : AttemptOut :=
  match handle_api_error r with
  | .error _ => retryStep intr st1 retry_count
  | .ok (false, _) => .ret st1.results st1.trace
  | .ok (true, some _) =>
      if max_consecutive_errors ≤ st1.consecutive_errors + 1 then
        .ret st1.results st1.trace
      else
        retryStep intr { st1 with consecutive_errors := st1.consecutive_errors + 1 } retry_count
  | .ok (true, Option.none) =>
      okStep intr num_pages page retry_count { st1 with consecutive_errors := 0 } r

/-- One iteration of the inner `while` body of `search_articles`
(`scholar_scraper.py` lines 154-260): fetch, then dispatch; a raised
fetch is absorbed by the `except` clauses as a retry. -/
def attemptPage (oracle : Nat → FetchOut) (intr : Nat → Bool)
    (num_pages page retry_count : Nat) (st : SState) : AttemptOut :=
  match oracle st.calls with
  | .raise => retryStep intr (bumpFetch page st) retry_count
  | .resp r => respStep intr num_pages page retry_count (bumpFetch page st) r

/-- Result of a whole `search_articles` call: a returned `ResultSet` (plus
the fetch trace), or a `KeyboardInterrupt` that escaped the call — in
which case nothing is handed to the caller. -/
inductive RunOut where
  | returned : List Record → List Nat → RunOut
  | interrupted : List Nat → RunOut

/-- Outcome of one full page of the outer `for` loop: either the whole
call ended (`ret`, a return or a propagated interrupt), or the `while`
loop exited and control reaches line 263 (`done`, with the final
`page_success`). -/
inductive PageOut where
  | ret : RunOut → PageOut
  | done : SState → Bool → PageOut

/-- The inner `while retry_count < self.max_retries and not page_success`
loop (`scholar_scraper.py` line 154), with fuel: `Option.none` means the
loop was still running when the fuel ran out. -/
def pageLoop (oracle : Nat → FetchOut) (intr : Nat → Bool)
    (num_pages page : Nat) :
    Nat → SState → Nat → Bool → Option PageOut
  | 0, _, _, _ => Option.none
  | fuel + 1, st, retry_count, page_success =>
      if retry_count < max_retries ∧ page_success = false then
        match attemptPage oracle intr num_pages page retry_count st with
        | .ret res tr => some (.ret (.returned res tr))
        | .interrupted tr => some (.ret (.interrupted tr))
        | .loop st2 rc2 ps2 => pageLoop oracle intr num_pages page fuel st2 rc2 ps2
      else some (.done st page_success)

/-- The outer `for page in range(num_pages)` loop (`scholar_scraper.py`
lines 150-265): each page starts with `retry_count = 0`,
`page_success = False`; a page abandoned after exhausting retries bumps
`consecutive_errors` (line 265) and the loop advances. -/
def pagesLoop (oracle : Nat → FetchOut) (intr : Nat → Bool)
    (num_pages fuel : Nat) : List Nat → SState → Option RunOut
  | [], st => some (.returned st.results st.trace)
  | page :: rest, st =>
      match pageLoop oracle intr num_pages page fuel st 0 false with
      | Option.none => Option.none
      | some (.ret o) => some o
      | some (.done st2 ps) =>
          let st3 := if ps then st2
            else { st2 with consecutive_errors := st2.consecutive_errors + 1 }
          pagesLoop oracle intr num_pages fuel rest st3


/-- `search_articles(self, query, num_pages, delay)` (`scholar_scraper.py`
lines 128-272).  The remote-fetch capability is abstracted as `oracle`,
indexed by the number of fetch calls already issued in this run; `intr`
says whether a `KeyboardInterrupt` arrives during the n-th sleep; `fuel`
bounds the iterations of each page's inner `while` loop (`Option.none`
means the run was still going when the fuel ran out).  The query string
and the delay durations do not influence control flow and are omitted. -/
def search_articles (oracle : Nat → FetchOut) (intr : Nat → Bool)
    (num_pages fuel : Nat) : Option RunOut :=
  pagesLoop oracle intr num_pages fuel (List.range num_pages) initState

/-- The interrupt oracle of an undisturbed run: no `KeyboardInterrupt`
ever arrives. -/
def noIntr : Nat → Bool := fun _ => false

/-- A response dictionary carrying only an `organic_results` list — an
OK-classified response with the given result items. -/
def goodResp (items : List PyVal) : List (String × PyVal) :=
  [("organic_results", PyVal.list items)]

/-- A response that classifies OK but carries no (truthy) `organic_results`
list — the "zero result items" soft-failure shape. -/
def zeroItemResp (r : List (String × PyVal)) : Prop :=
  handle_api_error r = Except.ok (true, Option.none) ∧
  ∀ v, r.lookup "organic_results" = some v → v.truthy = false

/-- Remote-fetch stub for the run-stop scenario: good pages for the first
`K` calls, then a fixed stopping response. -/
def stopOracle (K : Nat) (itemsOf : Nat → List PyVal)
    (stopR : List (String × PyVal)) : Nat → FetchOut :=
  fun c => if c < K then FetchOut.resp (goodResp (itemsOf c)) else FetchOut.resp stopR

/-- A minimal well-formed raw result item. -/
def item0 : PyVal := PyVal.dict [("title", PyVal.str "T")]

/-- The record `item0` normalizes to. -/
def rec0 : Record :=
  { title := PyVal.str "T", authors := "N/A", publication := PyVal.str "N/A",
    year := PyVal.str "N/A", cited_by := PyVal.int 0,
    link := PyVal.str "No URL available" }

/-- A response whose error text matches the CAPTCHA keyword group. -/
def captchaResp : List (String × PyVal) := [("error", PyVal.str "captcha required")]

/-- A response whose error text matches no keyword group (GENERIC). -/
def genericResp : List (String × PyVal) := [("error", PyVal.str "boom")]

/-- A fetch stub: first call CAPTCHA-classified, every later call a good
one-item page. -/
def oracle5 : Nat → FetchOut :=
  fun c => if c = 0 then FetchOut.resp captchaResp else FetchOut.resp (goodResp [item0])

/-- A raw item whose citation total is the negative integer -5. -/
def negCitedItem : PyVal :=
  PyVal.dict [("inline_links", PyVal.dict [("cited_by",
    PyVal.dict [("total", PyVal.int (-5))])])]

/-- Claim C3 as stated: for every fetch stub that always answers an
OK-classified response with `N` result items per page (each normalizing
cleanly), `search_articles` over `P` pages returns the `P × N` normalized
records in request order, with one fetch per page. -/
def C3Statement : Prop :=
  ∀ (P N f : Nat) (itemsOf : Nat → List PyVal) (rsOf : Nat → List Record),
    2 ≤ f →
    (∀ p, p < P → (itemsOf p).length = N) →
    (∀ p, p < P → processArticles (itemsOf p) [] = Except.ok (rsOf p)) →
    search_articles (fun c => FetchOut.resp (goodResp (itemsOf c))) noIntr P f =
      some (RunOut.returned ((List.range P).flatMap rsOf)
        ((List.range P).map (fun q => q * 10)))

/-- Claim C5 as stated: whenever the i-th fetch of a returning run was
CAPTCHA-classified, the next fetch (if any) targets the next page — its
`start` offset is 10 beyond the CAPTCHA page's offset. -/
def C5Statement : Prop :=
  ∀ (oracle : Nat → FetchOut) (P f i s : Nat) (res : List Record)
    (tr : List Nat) (r : List (String × PyVal)),
    search_articles oracle noIntr P f = some (RunOut.returned res tr) →
    oracle i = FetchOut.resp r →
    handle_api_error r = Except.ok (true, some ErrorType.captcha) →
    tr[i]? = some s →
    i + 1 < tr.length →
    tr[i + 1]? = some (s + 10)

/-- Claim C9 as stated: an interrupt never prevents `search_articles` from
returning the accumulated ResultSet — no run ends in the interrupted
outcome. -/
def C9Statement : Prop :=
  ∀ (oracle : Nat → FetchOut) (intr : Nat → Bool) (P f : Nat) (tr : List Nat),
    search_articles oracle intr P f ≠ some (RunOut.interrupted tr)


lemma doSleep_noIntr (st : SState) :
    doSleep noIntr st = .ok { st with sleeps := st.sleeps + 1 } := rfl

lemma attempt_stop (oracle : Nat → FetchOut) (intr : Nat → Bool)
    (np p rc : Nat) (st : SState) (r : List (String × PyVal))
    (et : Option ErrorType)
    (ho : oracle st.calls = FetchOut.resp r)
    (hh : handle_api_error r = Except.ok (false, et)) :
    attemptPage oracle intr np p rc st =
      AttemptOut.ret st.results (st.trace ++ [p * 10]) := by
  simp only [attemptPage, ho, respStep, hh, bumpFetch]

lemma attempt_retryable (oracle : Nat → FetchOut) (intr : Nat → Bool)
    (np p rc : Nat) (st : SState) (r : List (String × PyVal)) (et : ErrorType)
    (ho : oracle st.calls = FetchOut.resp r)
    (hh : handle_api_error r = Except.ok (true, some et)) :
    attemptPage oracle intr np p rc st =
      if max_consecutive_errors ≤ st.consecutive_errors + 1 then
        AttemptOut.ret st.results (st.trace ++ [p * 10])
      else
        retryStep intr
          { st with consecutive_errors := st.consecutive_errors + 1,
                    calls := st.calls + 1, trace := st.trace ++ [p * 10] } rc := by
  simp only [attemptPage, ho, respStep, hh, bumpFetch]

lemma attempt_zeroItem (oracle : Nat → FetchOut) (intr : Nat → Bool)
    (np p rc : Nat) (st : SState) (r : List (String × PyVal))
    (ho : oracle st.calls = FetchOut.resp r) (hr : zeroItemResp r) :
    attemptPage oracle intr np p rc st =
      AttemptOut.loop
        { st with consecutive_errors := 1, calls := st.calls + 1,
                  trace := st.trace ++ [p * 10] } rc false := by
  obtain ⟨hh, hz⟩ := hr
  simp only [attemptPage, ho, respStep, hh, bumpFetch, okStep]
  cases hl : List.lookup "organic_results" r with
  | none => rfl
  | some v =>
      have ht := hz v hl
      simp only [ht]
      rfl

lemma pageLoop_zeroItem (oracle : Nat → FetchOut) (intr : Nat → Bool)
    (np p : Nat)
    (hz : ∀ c, ∃ r, oracle c = FetchOut.resp r ∧ zeroItemResp r) :
    ∀ (fuel : Nat) (st : SState) (rc : Nat), rc < max_retries →
      pageLoop oracle intr np p fuel st rc false = Option.none := by
  intro fuel
  induction fuel with
  | zero => intro st rc _; rfl
  | succ f ih =>
      intro st rc h
      obtain ⟨r, ho, hr⟩ := hz st.calls
      unfold pageLoop
      rw [if_pos ⟨h, rfl⟩]
      rw [attempt_zeroItem oracle intr np p rc st r ho hr]
      exact ih _ rc h


lemma handle_goodResp (items : List PyVal) :
    handle_api_error (goodResp items) = Except.ok (true, Option.none) := rfl

lemma lookup_goodResp (items : List PyVal) :
    List.lookup "organic_results" (goodResp items) = some (PyVal.list items) := rfl

lemma pyIter_list (xs : List PyVal) : pyIter (PyVal.list xs) = Except.ok xs := rfl

lemma okStep_good (intr : Nat → Bool) (np p rc : Nat) (st2 : SState)
    (a : PyVal) (t : List PyVal) (rs : List Record)
    (hp : processArticles (a :: t) st2.results = Except.ok rs) :
    okStep intr np p rc st2 (goodResp (a :: t)) =
      successTail intr np p rc { st2 with results := rs } := by
  simp only [okStep, lookup_goodResp, pyIter_list, hp]
  rfl

lemma attempt_good (oracle : Nat → FetchOut) (np p rc : Nat) (st : SState)
    (items : List PyVal) (rs : List Record)
    (ho : oracle st.calls = FetchOut.resp (goodResp items))
    (hne : items ≠ [])
    (hp : processArticles items st.results = Except.ok rs) :
    attemptPage oracle noIntr np p rc st =
      AttemptOut.loop
        { st with results := rs, consecutive_errors := 0, calls := st.calls + 1,
                  trace := st.trace ++ [p * 10],
                  sleeps := if p < np - 1 then st.sleeps + 1 else st.sleeps }
        rc true := by
  obtain ⟨a, t, rfl⟩ := List.exists_cons_of_ne_nil hne
  simp only [attemptPage, ho, respStep, handle_goodResp, bumpFetch]
  rw [okStep_good noIntr np p rc
    (⟨st.results, 0, st.calls + 1, st.trace ++ [p * 10], st.sleeps⟩ : SState) a t rs hp]
  unfold successTail
  rw [doSleep_noIntr]
  split
  · rfl
  · rfl

lemma pageLoop_good (oracle : Nat → FetchOut) (np p f : Nat) (st : SState)
    (items : List PyVal) (rs : List Record)
    (ho : oracle st.calls = FetchOut.resp (goodResp items))
    (hne : items ≠ [])
    (hp : processArticles items st.results = Except.ok rs)
    (hf : 2 ≤ f) :
    pageLoop oracle noIntr np p f st 0 false =
      some (.done
        { st with results := rs, consecutive_errors := 0, calls := st.calls + 1,
                  trace := st.trace ++ [p * 10],
                  sleeps := if p < np - 1 then st.sleeps + 1 else st.sleeps }
        true) := by
  obtain ⟨f2, rfl⟩ : ∃ f2, f = f2 + 2 := ⟨f - 2, by omega⟩
  show pageLoop oracle noIntr np p (f2 + 1 + 1) st 0 false = _
  unfold pageLoop
  rw [if_pos ⟨by decide, rfl⟩]
  rw [attempt_good oracle np p 0 st items rs ho hne hp]
  unfold pageLoop
  rw [if_neg (by simp)]

lemma processArticles_shift (as : List PyVal) :
    ∀ acc, processArticles as acc =
      match processArticles as [] with
      | .ok rs => .ok (acc ++ rs)
      | .error rs => .error (acc ++ rs) := by
  induction as with
  | nil => intro acc; simp [processArticles]
  | cons a rest ih =>
      intro acc
      cases hn : normalize a with
      | error e => simp [processArticles, hn]
      | ok r =>
          simp only [processArticles, hn]
          rw [ih (acc ++ [r]), ih ([] ++ [r])]
          cases processArticles rest [] <;> simp

lemma processArticles_ok_shift (as : List PyVal) (rs : List Record)
    (h : processArticles as [] = Except.ok rs) (acc : List Record) :
    processArticles as acc = Except.ok (acc ++ rs) := by
  rw [processArticles_shift as acc, h]

lemma processArticles_ok_length (as : List PyVal) :
    ∀ (acc rs : List Record), processArticles as acc = Except.ok rs →
      rs.length = acc.length + as.length := by
  induction as with
  | nil =>
      intro acc rs h
      cases h
      simp
  | cons a rest ih =>
      intro acc rs h
      unfold processArticles at h
      cases hn : normalize a with
      | error e => rw [hn] at h; cases h
      | ok r =>
          rw [hn] at h
          have := ih (acc ++ [r]) rs h
          simp at this
          simp [this]
          omega

lemma pagesLoop_good_prefix (oracle : Nat → FetchOut) (np f : Nat)
    (itemsOf : Nat → List PyVal) (rsOf : Nat → List Record) (hf : 2 ≤ f) :
    ∀ (k a : Nat) (rest : List Nat) (st : SState),
      st.calls = a →
      (∀ j, j < k → oracle (a + j) = FetchOut.resp (goodResp (itemsOf (a + j)))) →
      (∀ j, j < k → itemsOf (a + j) ≠ []) →
      (∀ j, j < k → processArticles (itemsOf (a + j)) [] = Except.ok (rsOf (a + j))) →
      ∃ sl ce,
        pagesLoop oracle noIntr np f (List.range' a k ++ rest) st =
          pagesLoop oracle noIntr np f rest
            ⟨st.results ++ (List.range' a k).flatMap rsOf, ce, a + k,
             st.trace ++ (List.range' a k).map (fun q => q * 10), sl⟩ := by
  intro k
  induction k with
  | zero =>
      intro a rest st hca _ _ _
      refine ⟨st.sleeps, st.consecutive_errors, ?_⟩
      obtain ⟨res, ce, cl, tr, sl⟩ := st
      simp only [SState.calls] at hca
      subst hca
      simp [List.range']
  | succ k ih =>
      intro a rest st hca hor hne hpr
      have hstep : List.range' a (k + 1) = a :: List.range' (a + 1) k := rfl
      have ho0 : oracle st.calls = FetchOut.resp (goodResp (itemsOf a)) := by
        have := hor 0 (by omega)
        simpa [hca] using this
      have hne0 : itemsOf a ≠ [] := by
        have := hne 0 (by omega)
        simpa using this
      have hpr0 : processArticles (itemsOf a) [] = Except.ok (rsOf a) := by
        have := hpr 0 (by omega)
        simpa using this
      have hshift := processArticles_ok_shift (itemsOf a) (rsOf a) hpr0 st.results
      have hL : pagesLoop oracle noIntr np f (a :: (List.range' (a + 1) k ++ rest)) st
          = pagesLoop oracle noIntr np f (List.range' (a + 1) k ++ rest)
              ⟨st.results ++ rsOf a, 0, st.calls + 1, st.trace ++ [a * 10],
               if a < np - 1 then st.sleeps + 1 else st.sleeps⟩ := by
        conv_lhs => unfold pagesLoop
        rw [pageLoop_good oracle np a f st (itemsOf a) (st.results ++ rsOf a) ho0 hne0 hshift hf]
        rfl
      obtain ⟨sl, ce, heq⟩ := ih (a + 1) rest
        ⟨st.results ++ rsOf a, 0, st.calls + 1, st.trace ++ [a * 10],
         if a < np - 1 then st.sleeps + 1 else st.sleeps⟩
        (by simp [hca])
        (fun j hj => by
          have := hor (j + 1) (by omega)
          have harith : a + (j + 1) = a + 1 + j := by omega
          rwa [harith] at this)
        (fun j hj => by
          have := hne (j + 1) (by omega)
          have harith : a + (j + 1) = a + 1 + j := by omega
          rwa [harith] at this)
        (fun j hj => by
          have := hpr (j + 1) (by omega)
          have harith : a + (j + 1) = a + 1 + j := by omega
          rwa [harith] at this)
      refine ⟨sl, ce, ?_⟩
      rw [hstep, List.cons_append, hL, heq]
      congr 1
      simp only [SState.mk.injEq]
      refine ⟨?_, trivial, by omega, ?_, trivial⟩
      · simp [List.flatMap_cons, List.append_assoc]
      · simp [List.map_cons, List.append_assoc]

lemma search_stop_run (K P : Nat) (itemsOf : Nat → List PyVal)
    (rsOf : Nat → List Record) (stopR : List (String × PyVal))
    (et : Option ErrorType) (f : Nat)
    (hKP : K < P) (hf : 2 ≤ f)
    (hne : ∀ p, p < K → itemsOf p ≠ [])
    (hpr : ∀ p, p < K → processArticles (itemsOf p) [] = Except.ok (rsOf p))
    (hstop : handle_api_error stopR = Except.ok (false, et)) :
    search_articles (stopOracle K itemsOf stopR) noIntr P f =
      some (RunOut.returned ((List.range K).flatMap rsOf)
        ((List.range (K + 1)).map (fun q => q * 10))) := by
  unfold search_articles
  have hsplit : List.range P = List.range' 0 K ++ List.range' K (P - K) := by
    have happ := List.range'_append 0 K (P - K) 1
    simp only [Nat.one_mul, Nat.zero_add] at happ
    rw [List.range_eq_range', happ]
    congr 1
    omega
  rw [hsplit]
  obtain ⟨sl, ce, heq⟩ := pagesLoop_good_prefix (stopOracle K itemsOf stopR) P f
    itemsOf rsOf hf K 0 (List.range' K (P - K)) initState rfl
    (fun j hj => by simp [stopOracle, Nat.zero_add, if_pos hj])
    (fun j hj => by simpa using hne j hj)
    (fun j hj => by simpa using hpr j hj)
  rw [heq]
  have hPK : P - K = (P - K - 1) + 1 := by omega
  rw [hPK]
  have hcons : List.range' K (P - K - 1 + 1) = K :: List.range' (K + 1) (P - K - 1) := rfl
  rw [hcons]
  conv_lhs => unfold pagesLoop
  obtain ⟨f1, rfl⟩ : ∃ f1, f = f1 + 1 := ⟨f - 1, by omega⟩
  unfold pageLoop
  rw [if_pos ⟨by decide, rfl⟩]
  rw [attempt_stop (stopOracle K itemsOf stopR) noIntr P K 0
    (⟨initState.results ++ (List.range' 0 K).flatMap rsOf, ce, 0 + K,
      initState.trace ++ (List.range' 0 K).map (fun q => q * 10), sl⟩ : SState)
    stopR et (by simp [stopOracle]) hstop]
  simp only [initState]
  rw [List.range_eq_range']
  simp only [List.nil_append]
  congr 2
  rw [show K + 1 = Nat.succ K from rfl, List.range_succ, List.range_eq_range']
  simp


lemma search_good_run (P f : Nat) (itemsOf : Nat → List PyVal)
    (rsOf : Nat → List Record) (hf : 2 ≤ f)
    (hne : ∀ p, p < P → itemsOf p ≠ [])
    (hpr : ∀ p, p < P → processArticles (itemsOf p) [] = Except.ok (rsOf p)) :
    search_articles (fun c => FetchOut.resp (goodResp (itemsOf c))) noIntr P f =
      some (RunOut.returned ((List.range P).flatMap rsOf)
        ((List.range P).map (fun q => q * 10))) := by
  unfold search_articles
  conv_lhs => rw [List.range_eq_range', show List.range' 0 P = List.range' 0 P ++ [] by simp]
  obtain ⟨sl, ce, heq⟩ := pagesLoop_good_prefix
    (fun c => FetchOut.resp (goodResp (itemsOf c))) P f itemsOf rsOf hf P 0 [] initState rfl
    (fun j hj => rfl)
    (fun j hj => by simpa using hne j hj)
    (fun j hj => by simpa using hpr j hj)
  rw [heq]
  unfold pagesLoop
  simp [initState, List.range_eq_range']

/-- Claim C1: the spec promises termination — each page is attempted at
most `max_retries` times — for every fetch behavior, including one that
always answers an OK-classified response with zero result items.  The code
violates this: with such a fetch stub (constant empty response dictionary)
the zero-item branch updates neither `retry_count` nor `page_success`, so
the inner `while` loop re-fetches the same page forever and
`search_articles` never returns, whatever the fuel. -/
theorem C1_zero_item_nontermination :
    ∀ fuel : Nat,
      search_articles (fun _ => FetchOut.resp []) noIntr 1 fuel = Option.none := by
  intro fuel
  have hz : ∀ c : Nat, ∃ r, (fun _ : Nat => FetchOut.resp ([] : List (String × PyVal))) c
      = FetchOut.resp r ∧ zeroItemResp r := by
    intro c
    refine ⟨([] : List (String × PyVal)), rfl, rfl, ?_⟩
    intro v hv
    simp at hv
  have h0 := pageLoop_zeroItem (fun _ => FetchOut.resp []) noIntr 1 0 hz fuel initState 0
    (by decide)
  show pagesLoop (fun _ => FetchOut.resp []) noIntr 1 fuel [0] initState = Option.none
  unfold pagesLoop
  rw [h0]

/-- Claim C2: a run-stopping classification (`continue_scraping = False`:
RATE_LIMIT, ACCESS_DENIED, NO_RESULTS, EMPTY_RESULTS) makes
`search_articles` return the accumulated records immediately.  First
conjunct: at any attempt, any state: the attempt returns the current
ResultSet, the stopping fetch being the last one recorded.  Second
conjunct: end to end, with pages `0..K-1` succeeding (one fetch each) and
page `K` answering a stopping response, the run returns exactly the
records of pages `0..K-1` and the trace shows exactly `K + 1` fetches
(none beyond page `K`). -/
theorem C2_run_stop_returns_accumulated :
    (∀ (oracle : Nat → FetchOut) (intr : Nat → Bool) (np p rc : Nat)
       (st : SState) (r : List (String × PyVal)) (et : Option ErrorType),
       oracle st.calls = FetchOut.resp r →
       handle_api_error r = Except.ok (false, et) →
       attemptPage oracle intr np p rc st =
         AttemptOut.ret st.results (st.trace ++ [p * 10])) ∧
    (∀ (K P f : Nat) (itemsOf : Nat → List PyVal) (rsOf : Nat → List Record)
       (stopR : List (String × PyVal)) (et : Option ErrorType),
       K < P → 2 ≤ f →
       (∀ p, p < K → itemsOf p ≠ []) →
       (∀ p, p < K → processArticles (itemsOf p) [] = Except.ok (rsOf p)) →
       handle_api_error stopR = Except.ok (false, et) →
       search_articles (stopOracle K itemsOf stopR) noIntr P f =
         some (RunOut.returned ((List.range K).flatMap rsOf)
           ((List.range (K + 1)).map (fun q => q * 10)))) := by
  constructor
  · intro oracle intr np p rc st r et ho hh
    exact attempt_stop oracle intr np p rc st r et ho hh
  · intro K P f itemsOf rsOf stopR et hKP hf hne hpr hstop
    exact search_stop_run K P itemsOf rsOf stopR et f hKP hf hne hpr hstop

/-- Witness for C2: one good page (one item), then a rate-limited page, in
a three-page request: the run returns that single record after exactly
two fetches. -/
theorem C2_witness :
    search_articles (stopOracle 1 (fun _ => [item0])
        [("error", PyVal.str "Rate limit exceeded")]) noIntr 3 4 =
      some (RunOut.returned [rec0] [0, 10]) := by
  have h := C2_run_stop_returns_accumulated.2 1 3 4 (fun _ => [item0])
    (fun _ => [rec0]) [("error", PyVal.str "Rate limit exceeded")]
    (some ErrorType.rate_limit) (by decide) (by decide)
    (fun p _ => by simp [item0]) (fun p _ => rfl) rfl
  simpa using h


/-- Claim C3 fails as stated: it quantifies over every per-page item count
`N`, but for `N = 0` (a stub whose OK-classified responses carry an empty
`organic_results` list) the code re-fetches page 0 forever instead of
returning `P × 0 = 0` records: at the fuel demanded by the statement the
run is still going. -/
theorem C3_counterexample_zero_items : ¬ C3Statement := by
  intro h
  have h1 := h 1 0 2 (fun _ => []) (fun _ => []) (by omega)
    (fun p _ => rfl) (fun p _ => rfl)
  have h2 : (Option.none : Option RunOut) =
      some (RunOut.returned ((List.range 1).flatMap (fun _ => ([] : List Record)))
        ((List.range 1).map (fun q => q * 10))) := h1
  exact Option.noConfusion h2

/-- Claim C3 amended: provided each page carries `N ≥ 1` result items and
every item normalizes without raising, `search_articles` over `P` pages
returns exactly the `P` pages' records in request order (page order, item
order within a page; one fetch per page, offsets 0, 10, ...), and the
ResultSet has exactly `P × N` records. -/
theorem C3_all_pages_ok (P N f : Nat) (itemsOf : Nat → List PyVal)
    (rsOf : Nat → List Record)
    (hf : 2 ≤ f) (hN : 0 < N)
    (hlen : ∀ p, p < P → (itemsOf p).length = N)
    (hpr : ∀ p, p < P → processArticles (itemsOf p) [] = Except.ok (rsOf p)) :
    search_articles (fun c => FetchOut.resp (goodResp (itemsOf c))) noIntr P f =
      some (RunOut.returned ((List.range P).flatMap rsOf)
        ((List.range P).map (fun q => q * 10))) ∧
    ((List.range P).flatMap rsOf).length = P * N := by
  constructor
  · refine search_good_run P f itemsOf rsOf hf ?_ hpr
    intro p hp hnil
    have := hlen p hp
    rw [hnil] at this
    simp at this
    omega
  · have hrs : ∀ p, p < P → (rsOf p).length = N := by
      intro p hp
      have := processArticles_ok_length (itemsOf p) [] (rsOf p) (hpr p hp)
      simpa [hlen p hp] using this
    have hflat : ∀ (l : List Nat), (∀ p ∈ l, (rsOf p).length = N) →
        (l.flatMap rsOf).length = l.length * N := by
      intro l
      induction l with
      | nil => intro _; simp
      | cons a t ih =>
          intro hmem
          simp only [List.flatMap_cons, List.length_append, List.length_cons]
          rw [ih (fun p hp => hmem p (List.mem_cons_of_mem a hp)),
              hmem a (List.mem_cons_self a t)]
          ring
    rw [hflat (List.range P) (fun p hp => hrs p (List.mem_range.mp hp)),
        List.length_range]

/-- Claim C10: the ceiling comparison lives only in the retryable-
classification branch.  First conjunct: an OK-classified zero-item attempt,
from any prior counter value, just continues the same page's loop with the
counter at exactly 1 (reset then incremented) and the retry counter
unchanged — it never returns.  Second conjunct: abandoned pages bump the
counter without a check — a stub that always raises lets four requested
pages all run their three attempts (twelve fetches) even though the counter
passes the ceiling value after the third abandoned page. -/
theorem C10_ceiling_checked_only_for_classifier_errors :
    (∀ (st : SState) (rc np p : Nat),
        attemptPage (fun _ => FetchOut.resp []) noIntr np p rc st =
          AttemptOut.loop
            { st with consecutive_errors := 1, calls := st.calls + 1,
                      trace := st.trace ++ [p * 10] } rc false) ∧
    search_articles (fun _ => FetchOut.raise) noIntr 4 4 =
      some (RunOut.returned [] [0, 0, 0, 10, 10, 10, 20, 20, 20, 30, 30, 30]) := by
  constructor
  · intro st rc np p
    exact attempt_zeroItem (fun _ => FetchOut.resp []) noIntr np p rc st []
      rfl ⟨rfl, fun v hv => by simp at hv⟩
  · rfl

lemma retryStep_noIntr (st : SState) (rc : Nat) :
    retryStep noIntr st rc =
      AttemptOut.loop
        (if rc + 1 < max_retries then { st with sleeps := st.sleeps + 1 } else st)
        (rc + 1) false := by
  unfold retryStep
  rw [doSleep_noIntr]
  split
  · rfl
  · rfl

lemma successTail_noIntr (np p rc : Nat) (st3 : SState) :
    successTail noIntr np p rc st3 =
      AttemptOut.loop
        (if p < np - 1 then { st3 with sleeps := st3.sleeps + 1 } else st3)
        rc true := by
  unfold successTail
  rw [doSleep_noIntr]
  split
  · rfl
  · rfl

lemma loop_goal_defeq (x y : AttemptOut) (hxy : x = y)
    (h : ∃ st3 rc3 ps3, y = AttemptOut.loop st3 rc3 ps3 ∧
      st3.consecutive_errors ≤ 1 ∧ (ps3 = true → st3.consecutive_errors = 0)) :
    ∃ st3 rc3 ps3, x = AttemptOut.loop st3 rc3 ps3 ∧
      st3.consecutive_errors ≤ 1 ∧ (ps3 = true → st3.consecutive_errors = 0) := by
  rw [hxy]
  exact h

lemma retry_le_one (st : SState) (rc : Nat) (hce : st.consecutive_errors = 0) :
    ∃ st3 rc3 ps3, retryStep noIntr st rc = AttemptOut.loop st3 rc3 ps3 ∧
      st3.consecutive_errors ≤ 1 ∧ (ps3 = true → st3.consecutive_errors = 0) := by
  rw [retryStep_noIntr]
  refine ⟨_, _, _, rfl, by split <;> simp [hce], ?_⟩
  intro h
  cases h

lemma success_le_one (np p rc : Nat) (st3 : SState)
    (hce : st3.consecutive_errors = 0) :
    ∃ st4 rc4 ps4, successTail noIntr np p rc st3 = AttemptOut.loop st4 rc4 ps4 ∧
      st4.consecutive_errors ≤ 1 ∧ (ps4 = true → st4.consecutive_errors = 0) := by
  rw [successTail_noIntr]
  exact ⟨_, _, _, rfl, by split <;> simp [hce], fun _ => by split <;> simp [hce]⟩

lemma okStep_reset_le_one (np p rc : Nat) (st2 : SState)
    (r : List (String × PyVal)) (hce : st2.consecutive_errors = 0) :
    ∃ st3 rc3 ps3, okStep noIntr np p rc st2 r = AttemptOut.loop st3 rc3 ps3 ∧
      st3.consecutive_errors ≤ 1 ∧ (ps3 = true → st3.consecutive_errors = 0) := by
  unfold okStep
  cases hl : List.lookup "organic_results" r with
  | none =>
      refine ⟨_, _, _, rfl, by simp [hce], ?_⟩
      intro h
      cases h
  | some v =>
      cases htv : v.truthy with
      | false =>
          simp only [htv]
          refine ⟨_, _, _, rfl, by simp [hce], ?_⟩
          intro h
          cases h
      | true =>
          simp only [htv]
          cases hi : pyIter v with
          | error e => exact loop_goal_defeq _ _ rfl (retry_le_one st2 rc hce)
          | ok arts =>
              refine loop_goal_defeq _
                (match processArticles arts st2.results with
                 | Except.error part => retryStep noIntr { st2 with results := part } rc
                 | Except.ok rs => successTail noIntr np p rc { st2 with results := rs })
                rfl ?_
              cases hp : processArticles arts st2.results with
              | error part =>
                  exact loop_goal_defeq _ _ rfl (retry_le_one _ rc (by simp [hce]))
              | ok rs =>
                  exact loop_goal_defeq _ _ rfl (success_le_one np p rc _ (by simp [hce]))

/-- Claim C4: whenever a response classifies as a retryable error (GENERIC,
PROCESSING_ERROR or CAPTCHA, i.e. `continue` with a non-`None` tag), the
consecutive-error counter is incremented; if the incremented value reaches
`max_consecutive_errors`, the attempt returns the accumulated ResultSet at
once, otherwise the page loops with the retry counter bumped.  An
OK-classified response resets the counter to 0 (at most 1 after the
zero-item soft failure, and exactly 0 whenever the page succeeded). -/
theorem C4_consecutive_error_counter :
    ∀ (r : List (String × PyVal)) (st : SState) (rc np p : Nat),
      (∀ et : ErrorType, handle_api_error r = Except.ok (true, some et) →
        (max_consecutive_errors ≤ st.consecutive_errors + 1 →
          attemptPage (fun _ => FetchOut.resp r) noIntr np p rc st =
            AttemptOut.ret st.results (st.trace ++ [p * 10])) ∧
        (st.consecutive_errors + 1 < max_consecutive_errors →
          ∃ st2, attemptPage (fun _ => FetchOut.resp r) noIntr np p rc st =
              AttemptOut.loop st2 (rc + 1) false ∧
            st2.consecutive_errors = st.consecutive_errors + 1 ∧
            st2.results = st.results)) ∧
      (handle_api_error r = Except.ok (true, Option.none) →
        ∃ st2 rc2 ps2,
          attemptPage (fun _ => FetchOut.resp r) noIntr np p rc st =
            AttemptOut.loop st2 rc2 ps2 ∧
          st2.consecutive_errors ≤ 1 ∧ (ps2 = true → st2.consecutive_errors = 0)) := by
  intro r st rc np p
  constructor
  · intro et hh
    have hA := attempt_retryable (fun _ => FetchOut.resp r) noIntr np p rc st r et rfl hh
    constructor
    · intro hce
      rw [hA, if_pos hce]
    · intro hlt
      rw [hA, if_neg (by omega)]
      unfold retryStep
      rw [doSleep_noIntr]
      split
      · exact ⟨_, rfl, rfl, rfl⟩
      · exact ⟨_, rfl, rfl, rfl⟩
  · intro hh
    have hstep : attemptPage (fun _ => FetchOut.resp r) noIntr np p rc st
        = okStep noIntr np p rc { bumpFetch p st with consecutive_errors := 0 } r := by
      simp only [attemptPage, respStep, hh]
    rw [hstep]
    exact okStep_reset_le_one np p rc _ r rfl

/-- Witness for C4: a GENERIC-classified response at a fresh state loops
with the retry counter bumped to 1 and the consecutive-error counter at
1. -/
theorem C4_witness :
    ∃ st2, attemptPage (fun _ => FetchOut.resp genericResp) noIntr 3 0 0 initState =
        AttemptOut.loop st2 (0 + 1) false ∧
      st2.consecutive_errors = initState.consecutive_errors + 1 ∧
      st2.results = initState.results :=
  ((C4_consecutive_error_counter genericResp initState 0 3 0).1
    ErrorType.generic_error rfl).2 (by decide)


/-- Claim C5 fails as stated: in a concrete run (page 0 answers a
CAPTCHA-classified response, later calls succeed with one item), the fetch
after the CAPTCHA targets the same page — trace `[0, 0, 10]` — whereas the
claim demands the next page (offset 10) immediately. -/
theorem C5_counterexample_same_page : ¬ C5Statement := by
  intro h
  have h1 := h oracle5 2 4 0 0 [rec0, rec0] [0, 0, 10] captchaResp
    rfl rfl rfl rfl (by decide)
  exact absurd h1 (by decide)

/-- Claim C5 amended: a CAPTCHA classification is handled exactly like a
GENERIC (or PROCESSING_ERROR) one — the consecutive-error counter and the
same page's retry counter are incremented and the same page is re-fetched;
the loop advances only once retries are exhausted. -/
theorem C5_captcha_same_as_generic (r1 r2 : List (String × PyVal))
    (st : SState) (rc np p : Nat)
    (h1 : handle_api_error r1 = Except.ok (true, some ErrorType.captcha))
    (h2 : handle_api_error r2 = Except.ok (true, some ErrorType.generic_error)) :
    attemptPage (fun _ => FetchOut.resp r1) noIntr np p rc st =
      attemptPage (fun _ => FetchOut.resp r2) noIntr np p rc st := by
  rw [attempt_retryable (fun _ => FetchOut.resp r1) noIntr np p rc st r1
        ErrorType.captcha rfl h1,
      attempt_retryable (fun _ => FetchOut.resp r2) noIntr np p rc st r2
        ErrorType.generic_error rfl h2]

/-- Witness for the amended C5: the CAPTCHA and GENERIC transitions agree
on a fresh state. -/
theorem C5_witness :
    attemptPage (fun _ => FetchOut.resp captchaResp) noIntr 3 0 0 initState =
      attemptPage (fun _ => FetchOut.resp genericResp) noIntr 3 0 0 initState :=
  C5_captcha_same_as_generic captchaResp genericResp initState 0 3 0 rfl rfl

/-- Claim C9 fails as stated: a `KeyboardInterrupt` during the inter-page
wait after a successful page 0 escapes `search_articles` (its `except`
clauses catch only ordinary exceptions), so the run ends in the
interrupted outcome and the accumulated record of page 0 is never handed
to the caller. -/
theorem C9_counterexample_interrupt_loses_results : ¬ C9Statement := by
  intro h
  exact h (fun _ => FetchOut.resp (goodResp [item0])) (fun s => s == 0) 2 4 [0] rfl

/-- Claim C9 amended: an interrupt that fires during the backoff wait of a
retryable-classified attempt propagates out of the attempt: the outcome is
`interrupted`, not a return of the accumulated ResultSet. -/
theorem C9_interrupt_aborts_without_returning (intr : Nat → Bool)
    (r : List (String × PyVal)) (et : ErrorType) (st : SState) (rc np p : Nat)
    (hh : handle_api_error r = Except.ok (true, some et))
    (hce : st.consecutive_errors + 1 < max_consecutive_errors)
    (hrc : rc + 1 < max_retries)
    (hintr : intr st.sleeps = true) :
    attemptPage (fun _ => FetchOut.resp r) intr np p rc st =
      AttemptOut.interrupted (st.trace ++ [p * 10]) := by
  rw [attempt_retryable (fun _ => FetchOut.resp r) intr np p rc st r et rfl hh,
      if_neg (by omega)]
  unfold retryStep
  rw [if_pos hrc]
  unfold doSleep
  simp only [hintr]
  rfl

/-- Witness for the amended C9: with an interrupt pending at every sleep, a
GENERIC-classified first attempt ends the run interrupted. -/
theorem C9_witness :
    attemptPage (fun _ => FetchOut.resp genericResp) (fun _ => true) 1 0 0 initState =
      AttemptOut.interrupted [0] := by
  have h := C9_interrupt_aborts_without_returning (fun _ => true) genericResp
    ErrorType.generic_error initState 0 1 0 rfl (by decide) (by decide) rfl
  simpa using h

/-- Claim C7 fails as stated: the code never validates the value found at
`inline_links → cited_by → total`; a raw item carrying the negative
integer -5 there yields a record whose `cited_by` is -5, not the claimed
non-negative integer (the documented fallback 0 is not applied). -/
theorem C7_counterexample_negative_total :
    (normalize negCitedItem).map Record.cited_by = Except.ok (PyVal.int (-5)) ∧
    PyVal.int (-5) ≠ PyVal.int 0 := by
  constructor
  · rfl
  · intro h
    have := PyVal.int.inj h
    exact absurd this (by decide)

/-- Claim C7 amended: `cited_by` is whatever value sits at the
`inline_links → cited_by → total` path whenever `cited_by` is a record
containing `total` — no type or sign check is applied — and it defaults
to 0 when `cited_by` is present but not a record (and likewise when the
path is absent). -/
theorem C7_cited_by_unvalidated :
    (∀ v : PyVal,
      normalize (PyVal.dict [("inline_links", PyVal.dict [("cited_by",
          PyVal.dict [("total", v)])])]) =
        Except.ok { title := PyVal.str "Untitled", authors := "N/A",
                    publication := PyVal.str "N/A", year := PyVal.str "N/A",
                    cited_by := v, link := PyVal.str "No URL available" }) ∧
    normalize (PyVal.dict [("inline_links", PyVal.dict [("cited_by", PyVal.str "x")])]) =
      Except.ok { title := PyVal.str "Untitled", authors := "N/A",
                  publication := PyVal.str "N/A", year := PyVal.str "N/A",
                  cited_by := PyVal.int 0, link := PyVal.str "No URL available" } := by
  exact ⟨fun v => rfl, rfl⟩

/-- Claim C8: an authors list mixing a well-formed entry (a record with a
string name) and a malformed non-record entry joins the resolved name and
the stringified fallback, in order, with `", "`; a record entry without a
name contributes `"Unknown"`. -/
theorem C8_mixed_author_entries (s : String) (m : PyVal)
    (hm : ∀ ad, m ≠ PyVal.dict ad) :
    (normalize (PyVal.dict [("publication_info",
        PyVal.dict [("authors", PyVal.list [PyVal.dict [("name", PyVal.str s)], m])])])).map
        Record.authors = Except.ok (s ++ ", " ++ pyStr m) ∧
    (normalize (PyVal.dict [("publication_info",
        PyVal.dict [("authors", PyVal.list [PyVal.dict [], m])])])).map
        Record.authors = Except.ok ("Unknown" ++ ", " ++ pyStr m) := by
  cases m with
  | dict ad => exact absurd rfl (hm ad)
  | none => exact ⟨rfl, rfl⟩
  | bool b => exact ⟨rfl, rfl⟩
  | int i => exact ⟨rfl, rfl⟩
  | str s2 => exact ⟨rfl, rfl⟩
  | list xs => exact ⟨rfl, rfl⟩

/-- Witness for C8: `[{'name': 'Alice'}, 42]` joins to `"Alice, 42"`. -/
theorem C8_witness :
    (normalize (PyVal.dict [("publication_info",
        PyVal.dict [("authors",
          PyVal.list [PyVal.dict [("name", PyVal.str "Alice")], PyVal.int 42])])])).map
        Record.authors = Except.ok "Alice, 42" := by
  have h := (C8_mixed_author_entries "Alice" (PyVal.int 42)
    (fun ad hh => PyVal.noConfusion hh)).1
  rw [h]
  rfl


lemma get_dict (d : List (String × PyVal)) (k : String) (dflt : PyVal) :
    PyVal.get (PyVal.dict d) k dflt = Except.ok ((d.lookup k).getD dflt) := rfl

lemma bindOk {α β : Type} (x : α) (f : α → Except Unit β) :
    (Except.ok x : Except Unit α) >>= f = f x := rfl

lemma pureOk {α : Type} (x : α) : (pure x : Except Unit α) = Except.ok x := rfl

lemma authorsField_nil : authorsField (PyVal.list []) = Except.ok "N/A" := rfl

lemma safe_get_absent (d : List (String × PyVal)) (k : String) (dflt : PyVal)
    (h : d.lookup k = Option.none) :
    safe_get_field (PyVal.dict d) (Sum.inr k) dflt = dflt := by
  simp [safe_get_field, PyVal.get, h]

lemma strList_ok (xs : List PyVal)
    (h : ∀ x ∈ xs, ∃ s, x = PyVal.str s) :
    ∃ ss, strList xs = Except.ok ss := by
  induction xs with
  | nil => exact ⟨[], rfl⟩
  | cons x t ih =>
      obtain ⟨ss, hss⟩ := ih (fun y hy => h y (List.mem_cons_of_mem x hy))
      obtain ⟨s, hxs⟩ := h x (List.mem_cons_self x t)
      subst hxs
      refine ⟨s :: ss, ?_⟩
      simp [strList, pyStrOnly, hss, bindOk, pureOk]

lemma authorsField_ok (alv : PyVal)
    (h : ∀ as, alv = PyVal.list as → ∀ a, a ∈ as → ∀ ad, a = PyVal.dict ad →
      ∀ nv, ad.lookup "name" = some nv → ∃ s2, nv = PyVal.str s2) :
    ∃ au, authorsField alv = Except.ok au := by
  cases alv with
  | list as =>
      by_cases hemp : as.isEmpty
      · exact ⟨"N/A", by simp [authorsField, hemp, pureOk]⟩
      · have hall : ∀ x ∈ as.map authorElem, ∃ s, x = PyVal.str s := by
          intro x hx
          obtain ⟨a, ha, rfl⟩ := List.mem_map.mp hx
          cases a with
          | dict ad =>
              cases hn : ad.lookup "name" with
              | none => exact ⟨"Unknown", by simp [authorElem, dictGetD, hn]⟩
              | some nv =>
                  obtain ⟨s2, rfl⟩ := h as rfl (PyVal.dict ad) ha ad rfl nv hn
                  exact ⟨s2, by simp [authorElem, dictGetD, hn]⟩
          | none => exact ⟨_, rfl⟩
          | bool b => exact ⟨_, rfl⟩
          | int i => exact ⟨_, rfl⟩
          | str s2 => exact ⟨_, rfl⟩
          | list xs => exact ⟨_, rfl⟩
        obtain ⟨ss, hss⟩ := strList_ok (as.map authorElem) hall
        exact ⟨joinStrs ", " ss, by simp [authorsField, hemp, pyJoin, hss, bindOk, pureOk]⟩
  | none => exact ⟨"N/A", rfl⟩
  | bool b => exact ⟨"N/A", rfl⟩
  | int i => exact ⟨"N/A", rfl⟩
  | str s2 => exact ⟨"N/A", rfl⟩
  | dict dd => exact ⟨"N/A", rfl⟩

theorem C6_defaults_without_raising (d : List (String × PyVal))
    (hpub : ∀ v, d.lookup "publication_info" = some v → ∃ pd, v = PyVal.dict pd)
    (hinl : ∀ v, d.lookup "inline_links" = some v → ∃ il, v = PyVal.dict il)
    (hauth : ∀ pd, d.lookup "publication_info" = some (PyVal.dict pd) →
      ∀ as, pd.lookup "authors" = some (PyVal.list as) →
      ∀ a, a ∈ as → ∀ ad, a = PyVal.dict ad →
      ∀ nv, ad.lookup "name" = some nv → ∃ s2, nv = PyVal.str s2) :
    ∃ rec, normalize (PyVal.dict d) = Except.ok rec ∧
      (d.lookup "title" = Option.none → rec.title = PyVal.str "Untitled") ∧
      (d.lookup "link" = Option.none → rec.link = PyVal.str "No URL available") ∧
      (d.lookup "year" = Option.none → rec.year = PyVal.str "N/A") ∧
      (d.lookup "publication_info" = Option.none →
        rec.publication = PyVal.str "N/A" ∧ rec.authors = "N/A") ∧
      (d.lookup "inline_links" = Option.none → rec.cited_by = PyVal.int 0) := by
  cases hpl : d.lookup "publication_info" with
  | none =>
      cases hil : d.lookup "inline_links" with
      | none =>
          have hmain : normalize (PyVal.dict d) = Except.ok
              { title := safe_get_field (PyVal.dict d) (Sum.inr "title") (PyVal.str "Untitled"),
                authors := "N/A",
                publication := safe_get_field (PyVal.dict []) (Sum.inr "summary") (PyVal.str "N/A"),
                year := safe_get_field (PyVal.dict d) (Sum.inr "year") (PyVal.str "N/A"),
                cited_by := PyVal.int 0,
                link := safe_get_field (PyVal.dict d) (Sum.inr "link") (PyVal.str "No URL available") } := by
            unfold normalize
            simp only [get_dict, hpl, hil, Option.getD_none, bindOk, pureOk,
              List.lookup_nil, authorsField_nil, citedByField, dictGetD]
          refine ⟨_, hmain, ?_, ?_, ?_, ?_, ?_⟩
          · intro h; exact safe_get_absent d "title" _ h
          · intro h; exact safe_get_absent d "link" _ h
          · intro h; exact safe_get_absent d "year" _ h
          · intro _; exact ⟨rfl, rfl⟩
          · intro _; rfl
      | some w =>
          obtain ⟨il, rfl⟩ := hinl w hil
          have hmain : normalize (PyVal.dict d) = Except.ok
              { title := safe_get_field (PyVal.dict d) (Sum.inr "title") (PyVal.str "Untitled"),
                authors := "N/A",
                publication := safe_get_field (PyVal.dict []) (Sum.inr "summary") (PyVal.str "N/A"),
                year := safe_get_field (PyVal.dict d) (Sum.inr "year") (PyVal.str "N/A"),
                cited_by := citedByField ((il.lookup "cited_by").getD (PyVal.dict [])),
                link := safe_get_field (PyVal.dict d) (Sum.inr "link") (PyVal.str "No URL available") } := by
            unfold normalize
            simp only [get_dict, hpl, hil, Option.getD_none, Option.getD_some, bindOk, pureOk,
              List.lookup_nil, authorsField_nil]
          refine ⟨_, hmain, ?_, ?_, ?_, ?_, ?_⟩
          · intro h; exact safe_get_absent d "title" _ h
          · intro h; exact safe_get_absent d "link" _ h
          · intro h; exact safe_get_absent d "year" _ h
          · intro _; exact ⟨rfl, rfl⟩
          · intro h; exact Option.noConfusion h
  | some v =>
      obtain ⟨pd, rfl⟩ := hpub v hpl
      have hadapt : ∀ as, (pd.lookup "authors").getD (PyVal.list []) = PyVal.list as →
          ∀ a, a ∈ as → ∀ ad, a = PyVal.dict ad →
          ∀ nv, ad.lookup "name" = some nv → ∃ s2, nv = PyVal.str s2 := by
        intro as halv
        cases hal : pd.lookup "authors" with
        | none =>
            rw [hal] at halv
            simp at halv
            subst halv
            intro a ha
            simp at ha
        | some w =>
            rw [hal] at halv
            simp at halv
            rw [halv] at hal
            exact hauth pd hpl as hal
      obtain ⟨au, hau⟩ := authorsField_ok ((pd.lookup "authors").getD (PyVal.list [])) hadapt
      cases hil : d.lookup "inline_links" with
      | none =>
          have hmain : normalize (PyVal.dict d) = Except.ok
              { title := safe_get_field (PyVal.dict d) (Sum.inr "title") (PyVal.str "Untitled"),
                authors := au,
                publication := safe_get_field (PyVal.dict pd) (Sum.inr "summary") (PyVal.str "N/A"),
                year := safe_get_field (PyVal.dict d) (Sum.inr "year") (PyVal.str "N/A"),
                cited_by := PyVal.int 0,
                link := safe_get_field (PyVal.dict d) (Sum.inr "link") (PyVal.str "No URL available") } := by
            unfold normalize
            simp only [get_dict, hpl, hil, Option.getD_none, Option.getD_some, bindOk, pureOk,
              hau, List.lookup_nil, citedByField, dictGetD]
          refine ⟨_, hmain, ?_, ?_, ?_, ?_, ?_⟩
          · intro h; exact safe_get_absent d "title" _ h
          · intro h; exact safe_get_absent d "link" _ h
          · intro h; exact safe_get_absent d "year" _ h
          · intro h; exact Option.noConfusion h
          · intro _; rfl
      | some w =>
          obtain ⟨il, rfl⟩ := hinl w hil
          have hmain : normalize (PyVal.dict d) = Except.ok
              { title := safe_get_field (PyVal.dict d) (Sum.inr "title") (PyVal.str "Untitled"),
                authors := au,
                publication := safe_get_field (PyVal.dict pd) (Sum.inr "summary") (PyVal.str "N/A"),
                year := safe_get_field (PyVal.dict d) (Sum.inr "year") (PyVal.str "N/A"),
                cited_by := citedByField ((il.lookup "cited_by").getD (PyVal.dict [])),
                link := safe_get_field (PyVal.dict d) (Sum.inr "link") (PyVal.str "No URL available") } := by
            unfold normalize
            simp only [get_dict, hpl, hil, Option.getD_some, bindOk, pureOk, hau]
          refine ⟨_, hmain, ?_, ?_, ?_, ?_, ?_⟩
          · intro h; exact safe_get_absent d "title" _ h
          · intro h; exact safe_get_absent d "link" _ h
          · intro h; exact safe_get_absent d "year" _ h
          · intro h; exact Option.noConfusion h
          · intro h; exact Option.noConfusion h


/-- Claim C6 fails as stated: normalization is not exception-free — a raw
item whose `publication_info` is a string (wrong shape) makes
`pub_info.get('authors', [])` raise instead of substituting a default. -/
theorem C6_counterexample_wrong_shape_raises :
    normalize (PyVal.dict [("publication_info", PyVal.str "x")]) = Except.error () := rfl

/-- Witness for the amended C6: the empty raw item normalizes without
raising, every field at its documented default. -/
theorem C6_witness :
    ∃ rec, normalize (PyVal.dict []) = Except.ok rec ∧
      (List.lookup "title" ([] : List (String × PyVal)) = Option.none →
        rec.title = PyVal.str "Untitled") ∧
      (List.lookup "link" ([] : List (String × PyVal)) = Option.none →
        rec.link = PyVal.str "No URL available") ∧
      (List.lookup "year" ([] : List (String × PyVal)) = Option.none →
        rec.year = PyVal.str "N/A") ∧
      (List.lookup "publication_info" ([] : List (String × PyVal)) = Option.none →
        rec.publication = PyVal.str "N/A" ∧ rec.authors = "N/A") ∧
      (List.lookup "inline_links" ([] : List (String × PyVal)) = Option.none →
        rec.cited_by = PyVal.int 0) :=
  C6_defaults_without_raising []
    (fun v h => by simp at h)
    (fun v h => by simp at h)
    (fun pd h => by simp at h)

/-- Witness for the amended C3: two pages of two items each give four
records, in order, with one fetch per page. -/
theorem C3_witness :
    search_articles (fun _ => FetchOut.resp (goodResp [item0, item0])) noIntr 2 4 =
      some (RunOut.returned ((List.range 2).flatMap (fun _ => [rec0, rec0]))
        ((List.range 2).map (fun q => q * 10))) ∧
    ((List.range 2).flatMap (fun _ : Nat => [rec0, rec0])).length = 2 * 2 :=
  C3_all_pages_ok 2 2 4 (fun _ => [item0, item0]) (fun _ => [rec0, rec0])
    (by decide) (by decide) (fun p _ => rfl) (fun p _ => rfl)

end Scraper
